import Mathlib

/-!
Shallow embedding of `model/bert.py` (class `BertRanker`) from the
bert-ranking repository, together with theorems about its construction,
forward pass and optimizer configuration.

The Python module wires a pretrained BERT encoder into a one-output linear
classification head on top of an external training harness (`BaseRanker`).
External collaborators are modelled as parameters or as opaque records:

* the hyperparameter dictionary becomes an association list of `Value`s;
  `d[k]` becomes `HParams.item` (raising `Err.keyError` when absent) and
  `d.get(k)` becomes `HParams.get` (returning `Option`);
* the dataset constructors `PointwiseTrainDataset`, `PairwiseTrainDataset`
  and `ValTestDataset` (from `model/datasets.py`, not part of the shown
  source) are opaque: each is a `Dataset` record that merely remembers the
  constructor used and the arguments passed, which is all the claims need;
* `BertModel.from_pretrained` becomes a `registry` function from the model
  identifier to the encoder's parameter list (`none` models a resolution
  failure of the external registry);
* a torch parameter is reduced to its `requires_grad` flag, which is the
  only attribute the Python code reads or writes;
* `BaseRanker.__init__` stores its arguments; the stored fields appear
  directly on the `BertRanker` structure.

The forward pass is modelled at the level of rational-valued tensors
represented as nested lists, with the dropout mask (the random draw made
by `torch.nn.Dropout` in training mode) passed in explicitly.
-/

namespace BertRanking

/-- Hyperparameter values: the Python dict holds strings, ints, floats and
booleans. Floats are modelled as rationals. -/
inductive Value where
  | str (s : String)
  | int (n : Int)
  | num (q : ℚ)
  | bool (b : Bool)
  deriving DecidableEq, Repr

/-- Python truthiness of a value, as used by `not hparams[\x27freeze_bert\x27]`. -/
def Value.truthy : Value → Bool
  | .str s => s ≠ ""
  | .int n => n ≠ 0
  | .num q => q ≠ 0
  | .bool b => b

/-- The hyperparameter bundle: a finite string-keyed mapping. -/
abbrev HParams := List (String × Value)

/-- Python `hparams.get(k)`: `none` when the key is absent. -/
def HParams.get (hp : HParams) (k : String) : Option Value :=
  List.lookup k hp

/-- Errors that can escape the embedded code. `keyError` models Python's
`KeyError` from a `d[k]` lookup; `resolutionError` models a failure of the
external model registry in `BertModel.from_pretrained`; `typeError` models
a Python `TypeError` from passing a non-integer where one is required.
`configurationError` is the error class named by the specification's error
taxonomy; it is included so that statements can compare against it, but
nothing in the source ever raises it. -/
inductive Err where
  | keyError (key : String)
  | configurationError (msg : String)
  | resolutionError (ident : Value)
  | typeError (what : String)
  deriving DecidableEq, Repr

/-- Whether an error is the specification's `ConfigurationError`. -/
def Err.isConfigurationError : Err → Bool
  | .configurationError _ => true
  | _ => false

/-- Python `hparams[k]`: raises `KeyError` when the key is absent. -/
def HParams.item (hp : HParams) (k : String) : Except Err Value :=
  match hp.get k with
  | some v => Except.ok v
  | none => Except.error (Err.keyError k)

/-- Opaque dataset handles: each constructor records which external dataset
class was instantiated and with which arguments (`data_file`, split file,
`bert_type`), mirroring the constructor signatures used in `__init__`. -/
inductive Dataset where
  | pointwiseTrain (dataFile trainFile bertType : Value)
  | pairwiseTrain (dataFile trainFile bertType : Value)
  | valTest (dataFile file bertType : Value)
  deriving DecidableEq, Repr

/-- Whether a dataset was built by the pairwise training constructor. -/
def Dataset.isPairwiseTrain : Dataset → Bool
  | .pairwiseTrain _ _ _ => true
  | _ => false

/-- Whether a dataset was built by the pointwise training constructor. -/
def Dataset.isPointwiseTrain : Dataset → Bool
  | .pointwiseTrain _ _ _ => true
  | _ => false

/-- A torch parameter, reduced to its `requires_grad` flag (the only
attribute the Python code touches). -/
structure Param where
  requires_grad : Bool
  deriving DecidableEq, Repr

/-- The constructed ranker. The first seven fields are what
`BaseRanker.__init__` receives and stores; the last three model the modules
attached afterwards (`self.bert`, `self.dropout`, `self.classification`),
each reduced to the data the claims are about. `torch.nn.Dropout` has no
trainable parameters, so only its rate is kept. -/
structure BertRanker where
  hparams : HParams
  train_ds : Option Dataset
  val_ds : Option Dataset
  test_ds : Option Dataset
  loss_margin : Value
  batch_size : Value
  num_workers : Option Value
  bert : List Param
  dropout_p : Value
  classification : List Param
  deriving DecidableEq, Repr

/-- Lines 19-23 of `bert.py`: select and build the training dataset.
`hparams.get(\x27training_mode\x27) == \x27pointwise\x27` builds a pointwise dataset
from `data_file`, `train_file_pointwise` and `bert_type` (each via a raising
`[]` lookup, evaluated left to right); `== \x27pairwise\x27` builds the pairwise
analogue; any other value leaves `train_ds = None`. -/
def trainDs (hp : HParams) : Except Err (Option Dataset) :=
  if hp.get "training_mode" = some (Value.str "pointwise") then do
    let df ← hp.item "data_file"
    let tf ← hp.item "train_file_pointwise"
    let bt ← hp.item "bert_type"
    pure (some (Dataset.pointwiseTrain df tf bt))
  else if hp.get "training_mode" = some (Value.str "pairwise") then do
    let df ← hp.item "data_file"
    let tf ← hp.item "train_file_pairwise"
    let bt ← hp.item "bert_type"
    pure (some (Dataset.pairwiseTrain df tf bt))
  else
    pure none

/-- Lines 24-26 of `bert.py`: build the validation dataset when `val_file`
is present. -/
def valDs (hp : HParams) : Except Err (Option Dataset) :=
  if hp.get "val_file" ≠ none then do
    let df ← hp.item "data_file"
    let vf ← hp.item "val_file"
    let bt ← hp.item "bert_type"
    pure (some (Dataset.valTest df vf bt))
  else
    pure none

/-- Lines 27-29 of `bert.py`: build the test dataset when `test_file` is
present. -/
def testDs (hp : HParams) : Except Err (Option Dataset) :=
  if hp.get "test_file" ≠ none then do
    let df ← hp.item "data_file"
    let tf ← hp.item "test_file"
    let bt ← hp.item "bert_type"
    pure (some (Dataset.valTest df tf bt))
  else
    pure none

/-- Lines 38-39 of `bert.py`: `for p in self.bert.parameters():
p.requires_grad = not hparams[\x27freeze_bert\x27]`. The lookup happens inside
the loop body, so an empty parameter list raises nothing. -/
def freezeLoop (hp : HParams) : List Param → Except Err (List Param)
  | [] => Except.ok []
  | _ :: ps => do
    let fb ← hp.item "freeze_bert"
    let rest ← freezeLoop hp ps
    pure (Param.mk (!fb.truthy) :: rest)

/-- Construction of `BertRanker` (lines 18-39 of `bert.py`), in the source's
evaluation order: dataset selection, `num_workers` via a non-raising `get`,
the raising lookups of `loss_margin` and `batch_size` passed to
`BaseRanker.__init__`, encoder loading through the external registry,
dropout and classification-head attachment, then the freeze loop.
`torch.nn.Linear(bert_dim, 1)` contributes `bert_dim` weight parameters and
one bias parameter, all created with `requires_grad = True`. -/
def init (registry : Value → Option (List Param)) (hp : HParams) :
    Except Err BertRanker := do
  let train_ds ← trainDs hp
  let val_ds ← valDs hp
  let test_ds ← testDs hp
  let num_workers := hp.get "num_workers"
  let lm ← hp.item "loss_margin"
  let bs ← hp.item "batch_size"
  let bt ← hp.item "bert_type"
  let encParams ← (match registry bt with
    | some ps => Except.ok ps
    | none => Except.error (Err.resolutionError bt))
  let dr ← hp.item "dropout"
  let bd ← hp.item "bert_dim"
  let bdn ← (match bd with
    | Value.int n => Except.ok n.toNat
    | _ => Except.error (Err.typeError "bert_dim"))
  let bert ← freezeLoop hp encParams
  Except.ok
    { hparams := hp
      train_ds := train_ds
      val_ds := val_ds
      test_ds := test_ds
      loss_margin := lm
      batch_size := bs
      num_workers := num_workers
      bert := bert
      dropout_p := dr
      classification := List.replicate (bdn + 1) (Param.mk true) }

/-- `self.parameters()`: submodule parameters in registration order
(`self.bert`, then `self.dropout` which has none, then
`self.classification`). -/
def BertRanker.parameters (r : BertRanker) : List Param :=
  r.bert ++ r.classification

/-- Line 59 of `bert.py`: `filter(lambda p: p.requires_grad,
self.parameters())`. -/
def BertRanker.trainableParams (r : BertRanker) : List Param :=
  r.parameters.filter fun p => p.requires_grad

/-- The AdamW optimizer, reduced to the parameter list and learning rate it
receives. -/
structure Optimizer where
  params : List Param
  lr : Value
  deriving DecidableEq, Repr

/-- The object returned by `get_constant_schedule_with_warmup`, reduced to
the warmup step count it receives. -/
structure Scheduler where
  warmup_steps : Value
  deriving DecidableEq, Repr

/-- One scheduler descriptor `{'scheduler': sched, 'interval': 'step'}`. -/
structure SchedulerDict where
  scheduler : Scheduler
  interval : String
  deriving DecidableEq, Repr

/-- Lines 53-62 of `bert.py`: build one AdamW optimizer over the trainable
parameters with `self.hparams[\x27lr\x27]`, one constant-with-warmup scheduler
over `self.hparams[\x27warmup_steps\x27]`, and return the singleton lists
`[opt], [\x7b'scheduler': sched, 'interval': 'step'\x7d]`. -/
def BertRanker.configure_optimizers (r : BertRanker) :
    Except Err (List Optimizer × List SchedulerDict) := do
  let lr ← r.hparams.item "lr"
  let opt : Optimizer := { params := r.trainableParams, lr := lr }
  let ws ← r.hparams.item "warmup_steps"
  let sched : Scheduler := { warmup_steps := ws }
  pure ([opt], [{ scheduler := sched, interval := "step" }])

/-- Dot product of a weight row with an input row. -/
def dot (w v : List ℚ) : ℚ :=
  (List.zipWith (· * ·) w v).sum

/-- `torch.nn.Linear(bert_dim, 1)` at value level: one weight row and one
bias; applied to a `(B, bert_dim)` input it yields one scalar per row,
wrapped as a `(B, 1)` tensor. -/
structure LinearLayer where
  weight : List ℚ
  bias : ℚ

/-- Application of the linear classification head. -/
def LinearLayer.apply (l : LinearLayer) (x : List (List ℚ)) :
    List (List ℚ) :=
  x.map fun row => [dot l.weight row + l.bias]

/-- `torch.nn.Dropout(p)`: the rate and the module's train/eval mode flag
(torch modules are created in training mode). -/
structure DropoutLayer where
  p : ℚ
  training : Bool

/-- Semantics of `torch.nn.Dropout`: in training mode each entry is zeroed
according to the random mask drawn for this call and the survivors are
scaled by `1 / (1 - p)`; in eval mode the input passes through unchanged.
The random draw is the explicit `mask` argument. -/
def DropoutLayer.apply (d : DropoutLayer) (mask : Nat → Nat → Bool)
    (x : List (List ℚ)) : List (List ℚ) :=
  if d.training then
    x.mapIdx fun i row => row.mapIdx fun j v =>
      if mask i j then 0 else v / (1 - d.p)
  else
    x

/-- The encoder's output dict, reduced to the one entry `forward` reads:
`last_hidden_state`, a `(B, seq_len, bert_dim)` tensor. -/
structure BertOutput where
  last_hidden_state : List (List (List ℚ))

/-- Lines 41-51 of `bert.py`: `forward` runs the batch through the encoder,
takes `last_hidden_state[:, 0]` (the sequence-start representation; a
`none` result models the IndexError torch raises when a sequence axis is
empty), applies dropout, then the classification head. The batch type is
opaque; the encoder is the function `bert` (its current parameters are
baked into that function), and `mask` is the dropout randomness consumed by
this call. -/
def forward {Batch : Type} (bert : Batch → BertOutput)
    (dropout : DropoutLayer) (classification : LinearLayer)
    (mask : Nat → Nat → Bool) (batch : Batch) : Option (List (List ℚ)) :=
  match (bert batch).last_hidden_state.mapM List.head? with
  | some cls_out => some (classification.apply (dropout.apply mask cls_out))
  | none => none

/-- Shape predicate for a rank-2 tensor given as nested lists. -/
def hasShape2 (x : List (List ℚ)) (a b : Nat) : Prop :=
  x.length = a ∧ ∀ r ∈ x, r.length = b

/-- Shape predicate for a rank-3 tensor given as nested lists. -/
def hasShape3 (x : List (List (List ℚ))) (a b c : Nat) : Prop :=
  x.length = a ∧ ∀ m ∈ x, hasShape2 m b c

instance (x : List (List ℚ)) (a b : Nat) : Decidable (hasShape2 x a b) := by
  unfold hasShape2; infer_instance

instance (x : List (List (List ℚ))) (a b c : Nat) :
    Decidable (hasShape3 x a b c) := by
  unfold hasShape3 hasShape2; infer_instance

/-- Whether an optional dataset slot holds a pairwise training dataset. -/
def optIsPairwise : Option Dataset → Bool
  | some d => d.isPairwiseTrain
  | none => false

/-- Whether an optional dataset slot holds a pointwise training dataset. -/
def optIsPointwise : Option Dataset → Bool
  | some d => d.isPointwiseTrain
  | none => false

/-- Every dataset constructed during `__init__` is bound to one of the
three fields passed to the harness, so the pairwise constructor was invoked
during construction iff one of them holds a pairwise dataset. -/
def invokesPairwise (r : BertRanker) : Bool :=
  optIsPairwise r.train_ds || optIsPairwise r.val_ds ||
    optIsPairwise r.test_ds

/-- As `invokesPairwise`, for the pointwise constructor. -/
def invokesPointwise (r : BertRanker) : Bool :=
  optIsPointwise r.train_ds || optIsPointwise r.val_ds ||
    optIsPointwise r.test_ds

/-- A registry resolving every identifier to an encoder with two
parameters. -/
def reg1 : Value → Option (List Param) :=
  fun _ => some [Param.mk true, Param.mk true]

/-- A bundle with every unconditionally required key present, no training
mode, no validation or test file and no worker count. -/
def baseHp : HParams :=
  [("data_file", Value.str "data.jsonl"),
   ("bert_type", Value.str "bert-base-uncased"),
   ("bert_dim", Value.int 4),
   ("dropout", Value.num (1 / 10)),
   ("lr", Value.num (3 / 100000)),
   ("loss_margin", Value.num (1 / 5)),
   ("batch_size", Value.int 32),
   ("warmup_steps", Value.int 1000),
   ("freeze_bert", Value.bool false)]

/-- The spec's listwise scenario: an unsupported training mode. -/
def hpListwise : HParams :=
  ("training_mode", Value.str "listwise") :: baseHp

/-- A valid pointwise bundle. -/
def hpPointwise : HParams :=
  ("training_mode", Value.str "pointwise") ::
    ("train_file_pointwise", Value.str "train.tsv") :: baseHp

/-- A valid pairwise bundle. -/
def hpPairwise : HParams :=
  ("training_mode", Value.str "pairwise") ::
    ("train_file_pairwise", Value.str "train_pairs.tsv") :: baseHp

/-- Pointwise mode with the pointwise training path omitted. -/
def hpPointwiseNoPath : HParams :=
  ("training_mode", Value.str "pointwise") :: baseHp

/-- Pairwise mode with the pairwise training path omitted. -/
def hpPairwiseNoPath : HParams :=
  ("training_mode", Value.str "pairwise") :: baseHp

/-- The pointwise bundle with the freeze flag turned on (the prepended
entry shadows the one in `baseHp`). -/
def hpFrozen : HParams :=
  ("freeze_bert", Value.bool true) :: hpPointwise

/-- A bundle missing `loss_margin`. -/
def hpNoLM : HParams :=
  [("training_mode", Value.str "listwise"), ("batch_size", Value.int 32)]

/-- A bundle missing `batch_size`. -/
def hpNoBS : HParams :=
  [("training_mode", Value.str "listwise"),
   ("loss_margin", Value.num (1 / 5))]

/-- A pointwise bundle missing `data_file`. -/
def hpNoDF : HParams :=
  [("training_mode", Value.str "pointwise")]

/-- The ranker built from `hpPointwise` under `reg1`. -/
def rPointwise : BertRanker :=
  { hparams := hpPointwise
    train_ds := some (Dataset.pointwiseTrain (Value.str "data.jsonl")
      (Value.str "train.tsv") (Value.str "bert-base-uncased"))
    val_ds := none
    test_ds := none
    loss_margin := Value.num (1 / 5)
    batch_size := Value.int 32
    num_workers := none
    bert := [Param.mk true, Param.mk true]
    dropout_p := Value.num (1 / 10)
    classification := List.replicate 5 (Param.mk true) }

/-- The ranker built from `hpPairwise` under `reg1`. -/
def rPairwise : BertRanker :=
  { hparams := hpPairwise
    train_ds := some (Dataset.pairwiseTrain (Value.str "data.jsonl")
      (Value.str "train_pairs.tsv") (Value.str "bert-base-uncased"))
    val_ds := none
    test_ds := none
    loss_margin := Value.num (1 / 5)
    batch_size := Value.int 32
    num_workers := none
    bert := [Param.mk true, Param.mk true]
    dropout_p := Value.num (1 / 10)
    classification := List.replicate 5 (Param.mk true) }

/-- The ranker built from `hpFrozen` under `reg1`: the encoder parameters
come out with `requires_grad = false`. -/
def rFrozen : BertRanker :=
  { hparams := hpFrozen
    train_ds := some (Dataset.pointwiseTrain (Value.str "data.jsonl")
      (Value.str "train.tsv") (Value.str "bert-base-uncased"))
    val_ds := none
    test_ds := none
    loss_margin := Value.num (1 / 5)
    batch_size := Value.int 32
    num_workers := none
    bert := [Param.mk false, Param.mk false]
    dropout_p := Value.num (1 / 10)
    classification := List.replicate 5 (Param.mk true) }

/-- The optimizer `configure_optimizers` builds on `rPointwise`. -/
def optUnfrozen : Optimizer :=
  { params := List.replicate 7 (Param.mk true), lr := Value.num (3 / 100000) }

/-- The optimizer `configure_optimizers` builds on `rFrozen`. -/
def optFrozen : Optimizer :=
  { params := List.replicate 5 (Param.mk true), lr := Value.num (3 / 100000) }

/-- The scheduler descriptor both rankers return. -/
def schedStep : SchedulerDict :=
  { scheduler := { warmup_steps := Value.int 1000 }, interval := "step" }

/-- The pointwise bundle with a test file but no validation file. -/
def hpTestOnly : HParams :=
  ("test_file", Value.str "test.tsv") :: hpPointwise

/-- The pointwise bundle with a validation file but no test file. -/
def hpValOnly : HParams :=
  ("val_file", Value.str "val.tsv") :: hpPointwise

/-- The ranker built from `hpTestOnly` under `reg1`: a test dataset is
built while the validation handle stays `None`. -/
def rTestOnly : BertRanker :=
  { hparams := hpTestOnly
    train_ds := some (Dataset.pointwiseTrain (Value.str "data.jsonl")
      (Value.str "train.tsv") (Value.str "bert-base-uncased"))
    val_ds := none
    test_ds := some (Dataset.valTest (Value.str "data.jsonl")
      (Value.str "test.tsv") (Value.str "bert-base-uncased"))
    loss_margin := Value.num (1 / 5)
    batch_size := Value.int 32
    num_workers := none
    bert := [Param.mk true, Param.mk true]
    dropout_p := Value.num (1 / 10)
    classification := List.replicate 5 (Param.mk true) }

/-- The ranker built from `hpValOnly` under `reg1`: a validation dataset is
built while the test handle stays `None`. -/
def rValOnly : BertRanker :=
  { hparams := hpValOnly
    train_ds := some (Dataset.pointwiseTrain (Value.str "data.jsonl")
      (Value.str "train.tsv") (Value.str "bert-base-uncased"))
    val_ds := some (Dataset.valTest (Value.str "data.jsonl")
      (Value.str "val.tsv") (Value.str "bert-base-uncased"))
    test_ds := none
    loss_margin := Value.num (1 / 5)
    batch_size := Value.int 32
    num_workers := none
    bert := [Param.mk true, Param.mk true]
    dropout_p := Value.num (1 / 10)
    classification := List.replicate 5 (Param.mk true) }

/-- The ranker built from `hpListwise` under `reg1`: construction succeeds
with no training dataset. -/
def rListwise : BertRanker :=
  { hparams := hpListwise
    train_ds := none
    val_ds := none
    test_ds := none
    loss_margin := Value.num (1 / 5)
    batch_size := Value.int 32
    num_workers := none
    bert := [Param.mk true, Param.mk true]
    dropout_p := Value.num (1 / 10)
    classification := List.replicate 5 (Param.mk true) }

/-- A constant encoder over a one-element batch type, producing a
`(1, 1, 1)` hidden state. -/
def bertConst : Unit → BertOutput :=
  fun _ => { last_hidden_state := [[[1]]] }

/-- Dropout with rate one half, in training mode. -/
def dropHalf : DropoutLayer :=
  { p := 1 / 2, training := true }

/-- Dropout with rate one half, in eval mode. -/
def dropEval : DropoutLayer :=
  { p := 1 / 2, training := false }

/-- A classification head with unit weight and zero bias. -/
def headId : LinearLayer :=
  { weight := [1], bias := 0 }

/-- The dropout draw that keeps every entry. -/
def maskKeep : Nat → Nat → Bool :=
  fun _ _ => false

/-- The dropout draw that zeroes every entry. -/
def maskDrop : Nat → Nat → Bool :=
  fun _ _ => true

section Lemmas

/-- Bind on a successful `Except` computation. -/
theorem exc_bind_ok {ε α β : Type} (a : α) (f : α → Except ε β) :
    (Except.ok a >>= f) = f a := rfl

/-- Bind on a failed `Except` computation. -/
theorem exc_bind_error {ε α β : Type} (e : ε) (f : α → Except ε β) :
    ((Except.error e : Except ε α) >>= f) = Except.error e := rfl

/-- Inversion of a successful `Except` bind. -/
theorem exc_bind_eq_ok {ε α β : Type} (m : Except ε α) (f : α → Except ε β)
    (b : β) :
    m >>= f = Except.ok b ↔ ∃ a, m = Except.ok a ∧ f a = Except.ok b := by
  cases m with
  | ok a => simp [exc_bind_ok]
  | error e => simp [exc_bind_error]

/-- A present key makes the raising lookup succeed. -/
theorem item_of_get_some {hp : HParams} {k : String} {v : Value}
    (h : hp.get k = some v) : hp.item k = Except.ok v := by
  simp [HParams.item, h]

/-- An absent key makes the raising lookup raise `KeyError`. -/
theorem item_of_get_none {hp : HParams} {k : String}
    (h : hp.get k = none) : hp.item k = Except.error (Err.keyError k) := by
  simp [HParams.item, h]

/-- Inversion of a successful raising lookup. -/
theorem item_eq_ok {hp : HParams} {k : String} {v : Value} :
    hp.item k = Except.ok v ↔ hp.get k = some v := by
  unfold HParams.item
  cases h : hp.get k <;> simp

/-- The freeze loop with the flag present rewrites every encoder parameter
to the negation of the flag's truthiness. -/
theorem freezeLoop_of_get {hp : HParams} {fb : Value}
    (h : hp.get "freeze_bert" = some fb) (ps : List Param) :
    freezeLoop hp ps =
      Except.ok (ps.map fun _ => Param.mk (!fb.truthy)) := by
  induction ps with
  | nil => rfl
  | cons p ps ih =>
    simp [freezeLoop, item_of_get_some h, exc_bind_ok, ih]

/-- Characterization of a successful construction: every raising lookup on
the main path succeeded, the registry resolved the encoder, and the result
is exactly the record `__init__` builds. -/
theorem init_ok_inv {registry : Value → Option (List Param)} {hp : HParams}
    {r : BertRanker} (h : init registry hp = Except.ok r) :
    ∃ tds vds sds lm bs bt encParams dr n bert,
      trainDs hp = Except.ok tds ∧
      valDs hp = Except.ok vds ∧
      testDs hp = Except.ok sds ∧
      hp.get "loss_margin" = some lm ∧
      hp.get "batch_size" = some bs ∧
      hp.get "bert_type" = some bt ∧
      registry bt = some encParams ∧
      hp.get "dropout" = some dr ∧
      hp.get "bert_dim" = some (Value.int n) ∧
      freezeLoop hp encParams = Except.ok bert ∧
      r = { hparams := hp, train_ds := tds, val_ds := vds, test_ds := sds,
            loss_margin := lm, batch_size := bs,
            num_workers := hp.get "num_workers", bert := bert,
            dropout_p := dr,
            classification :=
              List.replicate (n.toNat + 1) (Param.mk true) } := by
  unfold init at h
  rw [exc_bind_eq_ok] at h
  obtain ⟨tds, hT, h⟩ := h
  rw [exc_bind_eq_ok] at h
  obtain ⟨vds, hV, h⟩ := h
  rw [exc_bind_eq_ok] at h
  obtain ⟨sds, hS, h⟩ := h
  rw [exc_bind_eq_ok] at h
  obtain ⟨lm, hLM, h⟩ := h
  rw [exc_bind_eq_ok] at h
  obtain ⟨bs, hBS, h⟩ := h
  rw [exc_bind_eq_ok] at h
  obtain ⟨bt, hBT, h⟩ := h
  rw [exc_bind_eq_ok] at h
  obtain ⟨encParams, hReg, h⟩ := h
  rw [exc_bind_eq_ok] at h
  obtain ⟨dr, hDR, h⟩ := h
  rw [exc_bind_eq_ok] at h
  obtain ⟨bd, hBD, h⟩ := h
  rw [exc_bind_eq_ok] at h
  obtain ⟨bdn, hBDN, h⟩ := h
  rw [exc_bind_eq_ok] at h
  obtain ⟨bert, hFL, h⟩ := h
  rw [item_eq_ok] at hLM hBS hBT hDR hBD
  cases hR : registry bt with
  | none => rw [hR] at hReg; cases hReg
  | some ps =>
    rw [hR] at hReg
    cases hReg
    cases bd with
    | int n =>
      refine ⟨tds, vds, sds, lm, bs, bt, encParams, dr, n, bert,
        hT, hV, hS, hLM, hBS, hBT, hR, hDR, ?_, hFL, ?_⟩
      · cases hBDN; exact hBD
      · cases hBDN; cases h; rfl
    | str s => cases hBDN
    | num q => cases hBDN
    | bool b => cases hBDN

/-- Reduction of `pure` in the `Except` monad. -/
theorem exc_pure {ε α : Type} (a : α) : (pure a : Except ε α) = Except.ok a :=
  rfl

/-- Pointwise mode with all three arguments present builds the pointwise
training dataset. -/
theorem trainDs_pointwise {hp : HParams} {df tf bt : Value}
    (hm : hp.get "training_mode" = some (Value.str "pointwise"))
    (hdf : hp.get "data_file" = some df)
    (htf : hp.get "train_file_pointwise" = some tf)
    (hbt : hp.get "bert_type" = some bt) :
    trainDs hp = Except.ok (some (Dataset.pointwiseTrain df tf bt)) := by
  unfold trainDs
  rw [if_pos hm, item_of_get_some hdf, exc_bind_ok, item_of_get_some htf,
    exc_bind_ok, item_of_get_some hbt, exc_bind_ok, exc_pure]

/-- Pairwise mode with all three arguments present builds the pairwise
training dataset. -/
theorem trainDs_pairwise {hp : HParams} {df tf bt : Value}
    (hm : hp.get "training_mode" = some (Value.str "pairwise"))
    (hdf : hp.get "data_file" = some df)
    (htf : hp.get "train_file_pairwise" = some tf)
    (hbt : hp.get "bert_type" = some bt) :
    trainDs hp = Except.ok (some (Dataset.pairwiseTrain df tf bt)) := by
  unfold trainDs
  rw [if_neg (by rw [hm]; decide), if_pos hm, item_of_get_some hdf,
    exc_bind_ok, item_of_get_some htf, exc_bind_ok, item_of_get_some hbt,
    exc_bind_ok, exc_pure]

/-- A training mode other than pointwise and pairwise builds no training
dataset and raises nothing. -/
theorem trainDs_other {hp : HParams}
    (hm1 : hp.get "training_mode" ≠ some (Value.str "pointwise"))
    (hm2 : hp.get "training_mode" ≠ some (Value.str "pairwise")) :
    trainDs hp = Except.ok none := by
  unfold trainDs
  rw [if_neg hm1, if_neg hm2, exc_pure]

/-- Pointwise mode with `data_file` present but the pointwise training path
absent raises `KeyError` for `train_file_pointwise`. -/
theorem trainDs_pointwise_missing_path {hp : HParams} {df : Value}
    (hm : hp.get "training_mode" = some (Value.str "pointwise"))
    (hdf : hp.get "data_file" = some df)
    (htf : hp.get "train_file_pointwise" = none) :
    trainDs hp = Except.error (Err.keyError "train_file_pointwise") := by
  unfold trainDs
  rw [if_pos hm, item_of_get_some hdf, exc_bind_ok, item_of_get_none htf,
    exc_bind_error]

/-- Pairwise mode with `data_file` present but the pairwise training path
absent raises `KeyError` for `train_file_pairwise`. -/
theorem trainDs_pairwise_missing_path {hp : HParams} {df : Value}
    (hm : hp.get "training_mode" = some (Value.str "pairwise"))
    (hdf : hp.get "data_file" = some df)
    (htf : hp.get "train_file_pairwise" = none) :
    trainDs hp = Except.error (Err.keyError "train_file_pairwise") := by
  unfold trainDs
  rw [if_neg (by rw [hm]; decide), if_pos hm, item_of_get_some hdf,
    exc_bind_ok, item_of_get_none htf, exc_bind_error]

/-- An error in the training-dataset selection propagates out of
construction unchanged. -/
theorem init_err_of_trainDs_err {registry : Value → Option (List Param)}
    {hp : HParams} {e : Err} (h : trainDs hp = Except.error e) :
    init registry hp = Except.error e := by
  unfold init
  rw [h, exc_bind_error]

/-- An omitted `val_file` builds no validation dataset and raises
nothing. -/
theorem valDs_of_none {hp : HParams} (h : hp.get "val_file" = none) :
    valDs hp = Except.ok none := by
  unfold valDs
  rw [if_neg (by rw [h]; decide), exc_pure]

/-- An omitted `test_file` builds no test dataset and raises nothing. -/
theorem testDs_of_none {hp : HParams} (h : hp.get "test_file" = none) :
    testDs hp = Except.ok none := by
  unfold testDs
  rw [if_neg (by rw [h]; decide), exc_pure]

/-- A successfully built validation slot never holds a training dataset:
the validation branch only ever calls the val/test constructor. -/
theorem valDs_only_valTest {hp : HParams} {o : Option Dataset}
    (h : valDs hp = Except.ok o) :
    optIsPairwise o = false ∧ optIsPointwise o = false := by
  unfold valDs at h
  split at h
  · rw [exc_bind_eq_ok] at h
    obtain ⟨df, _, h⟩ := h
    rw [exc_bind_eq_ok] at h
    obtain ⟨vf, _, h⟩ := h
    rw [exc_bind_eq_ok] at h
    obtain ⟨bt, _, h⟩ := h
    rw [exc_pure] at h
    cases h
    exact ⟨rfl, rfl⟩
  · rw [exc_pure] at h
    cases h
    exact ⟨rfl, rfl⟩

/-- A successfully built test slot never holds a training dataset. -/
theorem testDs_only_valTest {hp : HParams} {o : Option Dataset}
    (h : testDs hp = Except.ok o) :
    optIsPairwise o = false ∧ optIsPointwise o = false := by
  unfold testDs at h
  split at h
  · rw [exc_bind_eq_ok] at h
    obtain ⟨df, _, h⟩ := h
    rw [exc_bind_eq_ok] at h
    obtain ⟨tf, _, h⟩ := h
    rw [exc_bind_eq_ok] at h
    obtain ⟨bt, _, h⟩ := h
    rw [exc_pure] at h
    cases h
    exact ⟨rfl, rfl⟩
  · rw [exc_pure] at h
    cases h
    exact ⟨rfl, rfl⟩

/-- Characterization of a successful optimizer configuration: both lookups
succeeded and the result is one optimizer over the trainable parameters and
one per-step scheduler descriptor. -/
theorem configure_optimizers_ok_inv {r : BertRanker}
    {opts : List Optimizer} {scheds : List SchedulerDict}
    (h : r.configure_optimizers = Except.ok (opts, scheds)) :
    ∃ lr ws, r.hparams.get "lr" = some lr ∧
      r.hparams.get "warmup_steps" = some ws ∧
      opts = [{ params := r.trainableParams, lr := lr }] ∧
      scheds = [{ scheduler := { warmup_steps := ws },
                  interval := "step" }] := by
  unfold BertRanker.configure_optimizers at h
  rw [exc_bind_eq_ok] at h
  obtain ⟨lr, hlr, h⟩ := h
  rw [exc_bind_eq_ok] at h
  obtain ⟨ws, hws, h⟩ := h
  rw [exc_pure] at h
  injection h with h2
  rw [Prod.mk.injEq] at h2
  obtain ⟨h3, h4⟩ := h2
  subst h3
  subst h4
  exact ⟨lr, ws, item_eq_ok.mp hlr, item_eq_ok.mp hws, rfl, rfl⟩

/-- The trainable parameters split along the module order. -/
theorem trainableParams_eq (r : BertRanker) :
    r.trainableParams =
      r.bert.filter (fun p => p.requires_grad) ++
        r.classification.filter (fun p => p.requires_grad) := by
  simp [BertRanker.trainableParams, BertRanker.parameters,
    List.filter_append]

/-- Parameters set to `requires_grad = false` are all dropped by the
trainable filter. -/
theorem filter_grad_const_false (ps : List Param) :
    (ps.map fun _ => Param.mk false).filter (fun p => p.requires_grad)
      = [] := by
  induction ps with
  | nil => rfl
  | cons p ps ih => simp [List.filter, ih]

/-- Parameters set to `requires_grad = true` all pass the trainable
filter. -/
theorem filter_grad_const_true (ps : List Param) :
    (ps.map fun _ => Param.mk true).filter (fun p => p.requires_grad)
      = ps.map fun _ => Param.mk true := by
  rw [List.filter_eq_self]
  intro a ha
  rw [List.mem_map] at ha
  obtain ⟨b, _, rfl⟩ := ha
  rfl

/-- Freshly created head parameters all pass the trainable filter. -/
theorem filter_grad_replicate_true (n : Nat) :
    (List.replicate n (Param.mk true)).filter (fun p => p.requires_grad)
      = List.replicate n (Param.mk true) := by
  rw [List.filter_eq_self]
  intro a ha
  rw [List.eq_of_mem_replicate ha]

/-- Mapping `head?` over a list of nonempty lists succeeds and preserves
length. -/
theorem mapM_head_of_nonempty {α : Type} (xs : List (List α))
    (h : ∀ m ∈ xs, m ≠ []) :
    ∃ ys, xs.mapM List.head? = some ys ∧ ys.length = xs.length := by
  induction xs with
  | nil => exact ⟨[], rfl, rfl⟩
  | cons x xs ih =>
    obtain ⟨ys, hys, hlen⟩ := ih fun m hm => h m (List.mem_cons_of_mem _ hm)
    cases x with
    | nil => exact absurd rfl (h [] (List.mem_cons_self _ _))
    | cons a t =>
      refine ⟨a :: ys, ?_, by simp [hlen]⟩
      rw [List.mapM_cons]
      have hys2 : List.mapM.loop List.head? xs [] = some ys := hys
      simp [hys2, List.head?]

/-- Dropout preserves the batch dimension. -/
theorem dropout_apply_length (d : DropoutLayer) (mask : Nat → Nat → Bool)
    (x : List (List ℚ)) : (d.apply mask x).length = x.length := by
  unfold DropoutLayer.apply
  split
  · simp
  · rfl

/-- The classification head maps a `(B, *)` input to a `(B, 1)` output. -/
theorem linear_apply_shape (l : LinearLayer) (x : List (List ℚ)) :
    hasShape2 (l.apply x) x.length 1 := by
  unfold LinearLayer.apply hasShape2
  constructor
  · simp
  · intro r hr
    rw [List.mem_map] at hr
    obtain ⟨row, _, rfl⟩ := hr
    rfl

end Lemmas

/-- Claim C1 counterexample: with `training_mode = "listwise"` and every
other key of the spec's scenario present, construction does not fail with a
ConfigurationError — it succeeds, and merely builds no training dataset. -/
theorem c1_counterexample :
    (init reg1 hpListwise).isOk = true ∧
    (init reg1 hpListwise).map BertRanker.train_ds = Except.ok none :=
  ⟨rfl, rfl⟩

/-- Claim C1 (amended): for every hyperparameter bundle whose
`training_mode` is set to a value other than pointwise or pairwise,
construction does not fail on account of the mode: the mode dispatch builds
no training dataset and raises nothing, and any successful construction
carries `train_ds = None`. -/
theorem c1_unsupported_mode_no_failure
    (registry : Value → Option (List Param)) (hp : HParams)
    (hm1 : hp.get "training_mode" ≠ some (Value.str "pointwise"))
    (hm2 : hp.get "training_mode" ≠ some (Value.str "pairwise")) :
    trainDs hp = Except.ok none ∧
    ∀ r, init registry hp = Except.ok r → r.train_ds = none := by
  refine ⟨trainDs_other hm1 hm2, ?_⟩
  intro r h
  obtain ⟨tds, vds, sds, lm, bs, bt, enc, dr, n, bert,
    hT, hV, hS, hLM, hBS, hBT, hReg, hDR, hBD, hFL, hr⟩ := init_ok_inv h
  rw [trainDs_other hm1 hm2] at hT
  cases hT
  rw [hr]

/-- Witness for Claim C1 (amended) at the listwise bundle. -/
theorem c1_witness :
    trainDs hpListwise = Except.ok none ∧ rListwise.train_ds = none :=
  ⟨(c1_unsupported_mode_no_failure reg1 hpListwise (by decide) (by decide)).1,
   (c1_unsupported_mode_no_failure reg1 hpListwise (by decide)
      (by decide)).2 rListwise (by rfl)⟩

/-- Claim C2 counterexample: pointwise mode with no pointwise training path
fails with `KeyError('train_file_pointwise')`, a plain key-lookup error
that is not the spec's ConfigurationError class. -/
theorem c2_counterexample :
    init reg1 hpPointwiseNoPath =
      Except.error (Err.keyError "train_file_pointwise") ∧
    (Err.keyError "train_file_pointwise").isConfigurationError = false :=
  ⟨rfl, rfl⟩

/-- Claim C2 (amended): when the selected mode's training file path is
missing (with `data_file`, which is looked up first, present), construction
fails with the uncategorized key-lookup error `KeyError` naming the missing
path key, not with a ConfigurationError. -/
theorem c2_missing_path_keyError
    (registry : Value → Option (List Param)) (hp : HParams) (df : Value)
    (hdf : hp.get "data_file" = some df) :
    (hp.get "training_mode" = some (Value.str "pointwise") →
      hp.get "train_file_pointwise" = none →
      init registry hp =
        Except.error (Err.keyError "train_file_pointwise")) ∧
    (hp.get "training_mode" = some (Value.str "pairwise") →
      hp.get "train_file_pairwise" = none →
      init registry hp =
        Except.error (Err.keyError "train_file_pairwise")) := by
  constructor
  · intro hm htf
    exact init_err_of_trainDs_err (trainDs_pointwise_missing_path hm hdf htf)
  · intro hm htf
    exact init_err_of_trainDs_err (trainDs_pairwise_missing_path hm hdf htf)

/-- Witness for Claim C2 (amended) at the two concrete bundles. -/
theorem c2_witness :
    init reg1 hpPointwiseNoPath =
      Except.error (Err.keyError "train_file_pointwise") ∧
    init reg1 hpPairwiseNoPath =
      Except.error (Err.keyError "train_file_pairwise") :=
  ⟨(c2_missing_path_keyError reg1 hpPointwiseNoPath (Value.str "data.jsonl")
      (by rfl)).1 (by rfl) (by rfl),
   (c2_missing_path_keyError reg1 hpPairwiseNoPath (Value.str "data.jsonl")
      (by rfl)).2 (by rfl) (by rfl)⟩

/-- Claim C3: for every valid bundle with pointwise mode and a pointwise
path, construction invokes the pointwise training dataset constructor and
never the pairwise one; symmetrically for pairwise mode. Every dataset
constructed in `__init__` is bound to one of the three fields passed to the
harness, so constructor invocations are read off those fields. -/
theorem c3_mode_selects_constructor
    (registry : Value → Option (List Param)) (hp : HParams)
    (r : BertRanker) (df tf bt : Value)
    (hdf : hp.get "data_file" = some df)
    (hbt : hp.get "bert_type" = some bt)
    (h : init registry hp = Except.ok r) :
    (hp.get "training_mode" = some (Value.str "pointwise") →
      hp.get "train_file_pointwise" = some tf →
      r.train_ds = some (Dataset.pointwiseTrain df tf bt) ∧
        invokesPairwise r = false) ∧
    (hp.get "training_mode" = some (Value.str "pairwise") →
      hp.get "train_file_pairwise" = some tf →
      r.train_ds = some (Dataset.pairwiseTrain df tf bt) ∧
        invokesPointwise r = false) := by
  obtain ⟨tds, vds, sds, lm, bs, bt2, enc, dr, n, bert,
    hT, hV, hS, hLM, hBS, hBT, hReg, hDR, hBD, hFL, hr⟩ := init_ok_inv h
  subst hr
  constructor
  · intro hm htf
    rw [trainDs_pointwise hm hdf htf hbt] at hT
    cases hT
    refine ⟨rfl, ?_⟩
    show (optIsPairwise (some (Dataset.pointwiseTrain df tf bt)) ||
      optIsPairwise vds || optIsPairwise sds) = false
    rw [(valDs_only_valTest hV).1, (testDs_only_valTest hS).1]
    rfl
  · intro hm htf
    rw [trainDs_pairwise hm hdf htf hbt] at hT
    cases hT
    refine ⟨rfl, ?_⟩
    show (optIsPointwise (some (Dataset.pairwiseTrain df tf bt)) ||
      optIsPointwise vds || optIsPointwise sds) = false
    rw [(valDs_only_valTest hV).2, (testDs_only_valTest hS).2]
    rfl

/-- Witness for Claim C3 at the two concrete bundles. -/
theorem c3_witness :
    (rPointwise.train_ds = some (Dataset.pointwiseTrain
        (Value.str "data.jsonl") (Value.str "train.tsv")
        (Value.str "bert-base-uncased")) ∧
      invokesPairwise rPointwise = false) ∧
    (rPairwise.train_ds = some (Dataset.pairwiseTrain
        (Value.str "data.jsonl") (Value.str "train_pairs.tsv")
        (Value.str "bert-base-uncased")) ∧
      invokesPointwise rPairwise = false) :=
  ⟨(c3_mode_selects_constructor reg1 hpPointwise rPointwise
      (Value.str "data.jsonl") (Value.str "train.tsv")
      (Value.str "bert-base-uncased") (by rfl) (by rfl) (by rfl)).1
      (by rfl) (by rfl),
   (c3_mode_selects_constructor reg1 hpPairwise rPairwise
      (Value.str "data.jsonl") (Value.str "train_pairs.tsv")
      (Value.str "bert-base-uncased") (by rfl) (by rfl) (by rfl)).2
      (by rfl) (by rfl)⟩

/-- Claim C4: with `freeze_bert` truthy the optimizer receives exactly the
classification head's parameters (every encoder parameter is excluded, and
the counts agree); with it falsy it receives the encoder parameters
followed by the head's, and its parameter count is the sum of the two. -/
theorem c4_freeze_bert_optimizer_params
    (registry : Value → Option (List Param)) (hp : HParams)
    (r : BertRanker) (fb : Value) (opts : List Optimizer)
    (scheds : List SchedulerDict)
    (h : init registry hp = Except.ok r)
    (hfb : hp.get "freeze_bert" = some fb)
    (hc : r.configure_optimizers = Except.ok (opts, scheds)) :
    ∀ o ∈ opts,
      (fb.truthy = true →
        o.params = r.classification ∧
        o.params.length = r.classification.length) ∧
      (fb.truthy = false →
        o.params = r.bert ++ r.classification ∧
        o.params.length = r.bert.length + r.classification.length) := by
  obtain ⟨tds, vds, sds, lm, bs, bt, enc, dr, n, bert,
    hT, hV, hS, hLM, hBS, hBT, hReg, hDR, hBD, hFL, hr⟩ := init_ok_inv h
  rw [freezeLoop_of_get hfb] at hFL
  cases hFL
  have hber : r.bert = enc.map fun _ => Param.mk (!fb.truthy) := by
    rw [hr]
  have hcls : r.classification =
      List.replicate (n.toNat + 1) (Param.mk true) := by
    rw [hr]
  obtain ⟨lr, ws, hlr, hws, hopts, hscheds⟩ := configure_optimizers_ok_inv hc
  subst hopts
  intro o ho
  rw [List.mem_singleton] at ho
  subst ho
  constructor
  · intro hfr
    constructor <;>
      simp [trainableParams_eq, hber, hcls, hfr, filter_grad_const_false,
        filter_grad_replicate_true]
  · intro hfr
    constructor <;>
      simp [trainableParams_eq, hber, hcls, hfr, filter_grad_const_true,
        filter_grad_replicate_true]

/-- Witness for Claim C4 at the frozen and unfrozen concrete bundles. -/
theorem c4_witness :
    (Value.bool true).truthy = true ∧
    optFrozen.params = rFrozen.classification ∧
    (Value.bool false).truthy = false ∧
    optUnfrozen.params = rPointwise.bert ++ rPointwise.classification ∧
    optUnfrozen.params.length =
      rPointwise.bert.length + rPointwise.classification.length := by
  have h1 := c4_freeze_bert_optimizer_params reg1 hpFrozen rFrozen
    (Value.bool true) [optFrozen] [schedStep] (by rfl) (by rfl) (by rfl)
  have h2 := c4_freeze_bert_optimizer_params reg1 hpPointwise rPointwise
    (Value.bool false) [optUnfrozen] [schedStep] (by rfl) (by rfl) (by rfl)
  refine ⟨rfl, ((h1 optFrozen (List.mem_singleton.mpr rfl)).1 rfl).1, rfl,
    ((h2 optUnfrozen (List.mem_singleton.mpr rfl)).2 rfl).1,
    ((h2 optUnfrozen (List.mem_singleton.mpr rfl)).2 rfl).2⟩

/-- Claim C5: for every batch of size B ≥ 1 whose encoder output has shape
(B, seq_len, bert_dim) — with the sequence-start position present, i.e.
seq_len ≥ 1, as a transformer encoder output always has — forward returns a
score tensor of shape (B, 1): exactly one scalar per input example. -/
theorem c5_forward_shape {Batch : Type} (bert : Batch → BertOutput)
    (dropout : DropoutLayer) (classification : LinearLayer)
    (mask : Nat → Nat → Bool) (batch : Batch) (B L D : Nat)
    (_hB : 1 ≤ B) (hL : 1 ≤ L)
    (hshape : hasShape3 (bert batch).last_hidden_state B L D) :
    ∃ s, forward bert dropout classification mask batch = some s ∧
      hasShape2 s B 1 := by
  obtain ⟨hlen, hmem⟩ := hshape
  have hne : ∀ m ∈ (bert batch).last_hidden_state, m ≠ [] := by
    intro m hm hnil
    subst hnil
    have hL0 := (hmem [] hm).1
    simp at hL0
    omega
  obtain ⟨cls, hcls, hclslen⟩ := mapM_head_of_nonempty _ hne
  refine ⟨classification.apply (dropout.apply mask cls), ?_, ?_⟩
  · unfold forward
    rw [hcls]
  · have hsh := linear_apply_shape classification (dropout.apply mask cls)
    rw [dropout_apply_length, hclslen, hlen] at hsh
    exact hsh

/-- Witness for Claim C5 on a concrete one-element batch. -/
theorem c5_witness :
    (1 : Nat) ≤ 1 ∧
    hasShape3 (bertConst ()).last_hidden_state 1 1 1 ∧
    ∃ s, forward bertConst dropHalf headId maskKeep () = some s ∧
      hasShape2 s 1 1 :=
  ⟨le_refl 1, by simp [bertConst, hasShape3, hasShape2],
   c5_forward_shape bertConst dropHalf headId maskKeep () 1 1 1
     (le_refl 1) (le_refl 1) (by simp [bertConst, hasShape3, hasShape2])⟩

/-- Claim C6 counterexample: in training mode (the state torch modules are
created in, and the one the harness uses during training) with the
configured dropout rate 1/2, two forward calls on the same batch with the
same parameter values but different dropout draws return different score
tensors, and forward is therefore not a pure function of
(batch, current parameters) alone. -/
theorem c6_counterexample :
    forward bertConst dropHalf headId maskKeep () ≠
      forward bertConst dropHalf headId maskDrop () := by
  have h1 : forward bertConst dropHalf headId maskKeep ()
      = some [[2]] := by
    simp [forward, bertConst, dropHalf, headId, maskKeep,
      DropoutLayer.apply, LinearLayer.apply, dot, List.mapM.loop,
      List.mapIdx_cons, List.mapIdx_nil]
    norm_num
  have h2 : forward bertConst dropHalf headId maskDrop ()
      = some [[0]] := by
    simp [forward, bertConst, dropHalf, headId, maskDrop,
      DropoutLayer.apply, LinearLayer.apply, dot, List.mapM.loop,
      List.mapIdx_cons, List.mapIdx_nil]
  rw [h1, h2]
  norm_num

/-- Claim C6 (amended): forward mutates no model state and its result is a
pure function of (batch, current parameters, dropout draw); whenever
dropout is inactive (module in eval mode) the draw is irrelevant, and two
calls with the same batch and parameters return the same score tensor. -/
theorem c6_forward_pure_modulo_dropout {Batch : Type}
    (bert : Batch → BertOutput) (dropout : DropoutLayer)
    (classification : LinearLayer) (m1 m2 : Nat → Nat → Bool)
    (batch : Batch) (h : dropout.training = false) :
    forward bert dropout classification m1 batch =
      forward bert dropout classification m2 batch := by
  unfold forward DropoutLayer.apply
  rw [h]
  simp

/-- Witness for Claim C6 (amended) with eval-mode dropout. -/
theorem c6_witness :
    dropEval.training = false ∧
    forward bertConst dropEval headId maskKeep () =
      forward bertConst dropEval headId maskDrop () :=
  ⟨rfl, c6_forward_pure_modulo_dropout bertConst dropEval headId
    maskKeep maskDrop () rfl⟩

/-- Claim C7: whenever configure_optimizers returns, it returns exactly one
optimizer and exactly one scheduler descriptor, and the descriptor is
marked to be stepped once per optimization step, not once per epoch. -/
theorem c7_one_optimizer_one_scheduler (r : BertRanker)
    (opts : List Optimizer) (scheds : List SchedulerDict)
    (h : r.configure_optimizers = Except.ok (opts, scheds)) :
    opts.length = 1 ∧ scheds.length = 1 ∧
      ∀ sd ∈ scheds, sd.interval = "step" := by
  obtain ⟨lr, ws, hlr, hws, hopts, hscheds⟩ := configure_optimizers_ok_inv h
  subst hopts
  subst hscheds
  refine ⟨rfl, rfl, ?_⟩
  intro sd hsd
  rw [List.mem_singleton] at hsd
  subst hsd
  rfl

/-- Witness for Claim C7 at the concrete pointwise ranker. -/
theorem c7_witness :
    ([optUnfrozen] : List Optimizer).length = 1 ∧
    ([schedStep] : List SchedulerDict).length = 1 ∧
    ∀ sd ∈ [schedStep], sd.interval = "step" :=
  c7_one_optimizer_one_scheduler rPointwise [optUnfrozen] [schedStep]
    (by rfl)

/-- Claim C8: for every bundle in which `val_file` is omitted — whatever
the other keys, `test_file` included — no validation dataset is
constructed, the omission raises nothing, and the validation handle passed
to the harness is None; and independently the same holds for `test_file`
and the test dataset. -/
theorem c8_omitted_eval_files
    (registry : Value → Option (List Param)) (hp : HParams) :
    (hp.get "val_file" = none →
      valDs hp = Except.ok none ∧
      ∀ r, init registry hp = Except.ok r → r.val_ds = none) ∧
    (hp.get "test_file" = none →
      testDs hp = Except.ok none ∧
      ∀ r, init registry hp = Except.ok r → r.test_ds = none) := by
  constructor
  · intro hv
    refine ⟨valDs_of_none hv, ?_⟩
    intro r h
    obtain ⟨tds, vds, sds, lm, bs, bt, enc, dr, n, bert,
      hT, hV, hS, hLM, hBS, hBT, hReg, hDR, hBD, hFL, hr⟩ := init_ok_inv h
    rw [valDs_of_none hv] at hV
    cases hV
    rw [hr]
  · intro ht
    refine ⟨testDs_of_none ht, ?_⟩
    intro r h
    obtain ⟨tds, vds, sds, lm, bs, bt, enc, dr, n, bert,
      hT, hV, hS, hLM, hBS, hBT, hReg, hDR, hBD, hFL, hr⟩ := init_ok_inv h
    rw [testDs_of_none ht] at hS
    cases hS
    rw [hr]

/-- Witness for Claim C8 off the diagonal: a bundle with a test file but no
validation file exercises the `val_file` half (the test dataset is still
built), and a bundle with a validation file but no test file exercises the
`test_file` half. -/
theorem c8_witness :
    valDs hpTestOnly = Except.ok none ∧
    rTestOnly.val_ds = none ∧
    rTestOnly.test_ds = some (Dataset.valTest (Value.str "data.jsonl")
      (Value.str "test.tsv") (Value.str "bert-base-uncased")) ∧
    testDs hpValOnly = Except.ok none ∧
    rValOnly.test_ds = none ∧
    rValOnly.val_ds = some (Dataset.valTest (Value.str "data.jsonl")
      (Value.str "val.tsv") (Value.str "bert-base-uncased")) := by
  have h1 := (c8_omitted_eval_files reg1 hpTestOnly).1 (by rfl)
  have h2 := (c8_omitted_eval_files reg1 hpValOnly).2 (by rfl)
  exact ⟨h1.1, h1.2 rTestOnly (by rfl), rfl,
    h2.1, h2.2 rValOnly (by rfl), rfl⟩

/-- Claim C9: whatever the value of `freeze_bert`, construction leaves
every classification-head parameter trainable — the freeze loop touches
only the encoder's parameters — so the trainable filter in
configure_optimizers always keeps the head and the optimizer is never
constructed over an empty parameter set. -/
theorem c9_head_always_trainable
    (registry : Value → Option (List Param)) (hp : HParams)
    (r : BertRanker) (h : init registry hp = Except.ok r) :
    (∀ p ∈ r.classification, p.requires_grad = true) ∧
    r.classification ≠ [] ∧ r.trainableParams ≠ [] := by
  obtain ⟨tds, vds, sds, lm, bs, bt, enc, dr, n, bert,
    hT, hV, hS, hLM, hBS, hBT, hReg, hDR, hBD, hFL, hr⟩ := init_ok_inv h
  have hcls : r.classification =
      List.replicate (n.toNat + 1) (Param.mk true) := by
    rw [hr]
  refine ⟨?_, ?_, ?_⟩
  · intro p hp2
    rw [hcls] at hp2
    rw [List.eq_of_mem_replicate hp2]
  · rw [hcls]
    simp [List.replicate_succ]
  · rw [trainableParams_eq, hcls, filter_grad_replicate_true]
    simp [List.append_eq_nil, List.replicate_succ]

/-- Witness for Claim C9 at the concrete pointwise ranker. -/
theorem c9_witness :
    (∀ p ∈ rPointwise.classification, p.requires_grad = true) ∧
    rPointwise.classification ≠ [] ∧ rPointwise.trainableParams ≠ [] :=
  c9_head_always_trainable reg1 hpPointwise rPointwise (by rfl)

/-- Claim C10: omitting `num_workers` is not an error — the worker count is
read with a non-raising get and passed through to the harness as is (absent
becomes None) — while `loss_margin` and `batch_size` are read with raising
lookups after the dataset branches whatever the training mode, and
`data_file` is read with a raising lookup whenever any dataset is built;
each missing required key fails construction with the corresponding
key-lookup error, which propagates out of construction unchanged. -/
theorem c10_optional_and_required_keys
    (registry : Value → Option (List Param)) (hp : HParams) :
    (∀ r, init registry hp = Except.ok r →
      r.num_workers = hp.get "num_workers") ∧
    (∀ t v s, trainDs hp = Except.ok t → valDs hp = Except.ok v →
      testDs hp = Except.ok s → hp.get "loss_margin" = none →
      init registry hp = Except.error (Err.keyError "loss_margin")) ∧
    (∀ t v s lm, trainDs hp = Except.ok t → valDs hp = Except.ok v →
      testDs hp = Except.ok s → hp.get "loss_margin" = some lm →
      hp.get "batch_size" = none →
      init registry hp = Except.error (Err.keyError "batch_size")) ∧
    (hp.get "data_file" = none →
      (hp.get "training_mode" = some (Value.str "pointwise") →
        trainDs hp = Except.error (Err.keyError "data_file")) ∧
      (hp.get "training_mode" = some (Value.str "pairwise") →
        trainDs hp = Except.error (Err.keyError "data_file")) ∧
      (hp.get "val_file" ≠ none →
        valDs hp = Except.error (Err.keyError "data_file")) ∧
      (hp.get "test_file" ≠ none →
        testDs hp = Except.error (Err.keyError "data_file"))) ∧
    (∀ e, trainDs hp = Except.error e →
      init registry hp = Except.error e) := by
  refine ⟨?_, ?_, ?_, ?_, ?_⟩
  · intro r h
    obtain ⟨tds, vds, sds, lm, bs, bt, enc, dr, n, bert,
      hT, hV, hS, hLM, hBS, hBT, hReg, hDR, hBD, hFL, hr⟩ := init_ok_inv h
    rw [hr]
  · intro t v s hT hV hS hlm
    simp [init, hT, hV, hS, exc_bind_ok, item_of_get_none hlm,
      exc_bind_error]
  · intro t v s lm hT hV hS hlm hbs
    simp [init, hT, hV, hS, exc_bind_ok, item_of_get_some hlm,
      item_of_get_none hbs, exc_bind_error]
  · intro hdf
    refine ⟨?_, ?_, ?_, ?_⟩
    · intro hm
      unfold trainDs
      rw [if_pos hm, item_of_get_none hdf, exc_bind_error]
    · intro hm
      unfold trainDs
      rw [if_neg (by rw [hm]; decide), if_pos hm, item_of_get_none hdf,
        exc_bind_error]
    · intro hv
      unfold valDs
      rw [if_pos hv, item_of_get_none hdf, exc_bind_error]
    · intro ht
      unfold testDs
      rw [if_pos ht, item_of_get_none hdf, exc_bind_error]
  · intro e hT
    exact init_err_of_trainDs_err hT

/-- Witness for Claim C10 at concrete bundles: an omitted worker count is
passed through as None while each missing required key raises its
KeyError. -/
theorem c10_witness :
    rPointwise.num_workers = hpPointwise.get "num_workers" ∧
    hpPointwise.get "num_workers" = none ∧
    init reg1 hpNoLM = Except.error (Err.keyError "loss_margin") ∧
    init reg1 hpNoBS = Except.error (Err.keyError "batch_size") ∧
    trainDs hpNoDF = Except.error (Err.keyError "data_file") ∧
    init reg1 hpNoDF = Except.error (Err.keyError "data_file") := by
  have h1 := c10_optional_and_required_keys reg1 hpPointwise
  have h2 := c10_optional_and_required_keys reg1 hpNoLM
  have h3 := c10_optional_and_required_keys reg1 hpNoBS
  have h4 := c10_optional_and_required_keys reg1 hpNoDF
  refine ⟨h1.1 rPointwise (by rfl), by rfl,
    h2.2.1 none none none (by rfl) (by rfl) (by rfl) (by rfl),
    h3.2.2.1 none none none (Value.num (1 / 5)) (by rfl) (by rfl) (by rfl)
      (by rfl) (by rfl), ?_, ?_⟩
  · exact (h4.2.2.2.1 (by rfl)).1 (by rfl)
  · exact h4.2.2.2.2 (Err.keyError "data_file")
      ((h4.2.2.2.1 (by rfl)).1 (by rfl))

end BertRanking
